import Mathlib

/-!
A verification development for the Ceres semantic-search indexer.

The definitions below are shallow embeddings of the Rust sources:
`crates/ceres-core/src/sync.rs`, `crates/ceres-client/src/gemini.rs`,
`crates/ceres-client/src/ckan.rs`, `crates/ceres-db/src/repository.rs`
and `crates/ceres-cli/src/main.rs`.  Machine integers become `Nat`,
fallible calls become `Except`, and the stateful orchestration in
`sync_portal` is modelled by explicit environments (one oracle per
external call) together with an effect trace.
-/

namespace Ceres

/-- From `sync.rs`: outcome of processing a single dataset during sync. -/
inductive SyncOutcome where
  | unchanged
  | updated
  | created
  | failed
deriving DecidableEq, Repr

/-- From `sync.rs`: statistics for a portal sync operation. -/
structure SyncStats where
  unchanged : Nat
  updated : Nat
  created : Nat
  failed : Nat
deriving DecidableEq, Repr

/-- From `sync.rs`: `SyncStats::new` (the all-zero default). -/
def SyncStats.new : SyncStats := ⟨0, 0, 0, 0⟩

/-- From `sync.rs`: `SyncStats::record`, incrementing the matching counter. -/
def SyncStats.record (s : SyncStats) (outcome : SyncOutcome) : SyncStats :=
  match outcome with
  | .unchanged => { s with unchanged := s.unchanged + 1 }
  | .updated => { s with updated := s.updated + 1 }
  | .created => { s with created := s.created + 1 }
  | .failed => { s with failed := s.failed + 1 }

/-- From `sync.rs`: `SyncStats::total`. -/
def SyncStats.total (s : SyncStats) : Nat :=
  s.unchanged + s.updated + s.created + s.failed

/-- From `sync.rs`: `SyncStats::successful`. -/
def SyncStats.successful (s : SyncStats) : Nat :=
  s.unchanged + s.updated + s.created

/-- From `sync.rs`: result of delta detection for a dataset. -/
structure ReprocessingDecision where
  needs_embedding : Bool
  outcome : SyncOutcome
  reason : String
deriving DecidableEq, Repr

/-- From `sync.rs`: `ReprocessingDecision::is_legacy`. -/
def ReprocessingDecision.is_legacy (d : ReprocessingDecision) : Bool :=
  d.reason = "legacy record without hash"

/-- From `sync.rs`: `needs_reprocessing`, the pure content-hash delta decider.
The Rust match guard `Some(Some(hash)) if hash == new_hash` becomes the
if-then-else in the first arm. -/
def needs_reprocessing (existing_hash : Option (Option String)) (new_hash : String) :
    ReprocessingDecision :=
  match existing_hash with
  | some (some hash) =>
      if hash = new_hash then
        ⟨false, .unchanged, "content hash matches"⟩
      else
        ⟨true, .updated, "content hash changed"⟩
  | some none => ⟨true, .updated, "legacy record without hash"⟩
  | none => ⟨true, .created, "new dataset"⟩

/-- From `sync.rs`: result of harvesting a single portal in batch mode. -/
structure PortalHarvestResult where
  portal_name : String
  portal_url : String
  stats : SyncStats
  error : Option String
deriving DecidableEq, Repr

/-- From `sync.rs`: `PortalHarvestResult::success`. -/
def PortalHarvestResult.success (name url : String) (stats : SyncStats) :
    PortalHarvestResult :=
  ⟨name, url, stats, none⟩

/-- From `sync.rs`: `PortalHarvestResult::failure` (stats default to zero). -/
def PortalHarvestResult.failure (name url : String) (error : String) :
    PortalHarvestResult :=
  ⟨name, url, SyncStats.new, some error⟩

/-- From `sync.rs`: `PortalHarvestResult::is_success`. -/
def PortalHarvestResult.is_success (r : PortalHarvestResult) : Bool :=
  r.error.isNone

/-- From `sync.rs`: aggregated results from batch harvesting multiple portals. -/
structure BatchHarvestSummary where
  results : List PortalHarvestResult
deriving DecidableEq, Repr

/-- From `sync.rs`: `BatchHarvestSummary::successful_count`. -/
def BatchHarvestSummary.successful_count (s : BatchHarvestSummary) : Nat :=
  s.results.countP (fun r => r.is_success)

/-- From `sync.rs`: `BatchHarvestSummary::failed_count`. -/
def BatchHarvestSummary.failed_count (s : BatchHarvestSummary) : Nat :=
  s.results.countP (fun r => !r.is_success)

/-- From `sync.rs`: `BatchHarvestSummary::total_datasets`. -/
def BatchHarvestSummary.total_datasets (s : BatchHarvestSummary) : Nat :=
  (s.results.map (fun r => r.stats.total)).sum

/-- From `sync.rs`: `BatchHarvestSummary::total_portals`. -/
def BatchHarvestSummary.total_portals (s : BatchHarvestSummary) : Nat :=
  s.results.length

/-- Rust `str::contains` (substring containment), over the character list. -/
def strContains (s pat : String) : Bool :=
  s.data.tails.any fun t => pat.data.isPrefixOf t

/-- From `error.rs`: the closed classification of embedding-service errors. -/
inductive GeminiErrorKind where
  | authentication
  | rateLimit
  | quotaExceeded
  | serverError
  | networkError
  | unknown
deriving DecidableEq, Repr

/-- From `gemini.rs`: `classify_gemini_error`, mapping an HTTP status code and a
message to a `GeminiErrorKind`.  The Rust range pattern `500..=599` becomes the
explicit bounds check. -/
def classify_gemini_error (status_code : Nat) (message : String) : GeminiErrorKind :=
  if status_code = 401 then .authentication
  else if status_code = 429 then
    if strContains message "insufficient_quota" || strContains message "quota" then
      .quotaExceeded
    else .rateLimit
  else if 500 ≤ status_code ∧ status_code ≤ 599 then .serverError
  else if strContains message "API key" || strContains message "Unauthorized" then
    .authentication
  else if strContains message "rate" then .rateLimit
  else if strContains message "quota" then .quotaExceeded
  else .unknown

/-- Outcome of one HTTP send in `request_with_retry` (ckan.rs): a response
with a status code, or a transport-level failure of the given kind. -/
inductive HttpAttempt where
  | response (status : Nat)
  | timeoutErr
  | connectErr (msg : String)
  | otherErr (msg : String)
deriving DecidableEq, Repr

/-- From `error.rs`: the `AppError` variants reachable from
`request_with_retry`. -/
inductive AppError where
  | clientError (msg : String)
  | rateLimitExceeded
  | timeout (secs : Nat)
  | networkError (msg : String)
  | generic (msg : String)
deriving DecidableEq, Repr

/-- Rust `Result<Response, AppError>` as returned by `request_with_retry`;
`ok status` models returning the successful (2xx) response. -/
inductive RetryResult where
  | ok (status : Nat)
  | error (e : AppError)
deriving DecidableEq, Repr

/-- From `ckan.rs`: `MAX_RETRIES`. -/
def MAX_RETRIES : Nat := 3

/-- From `ckan.rs`: `RETRY_BASE_DELAY_MS`. -/
def RETRY_BASE_DELAY_MS : Nat := 500

/-- Observable behaviour of one `request_with_retry` run: how many send
attempts were made, the backoff delays slept (in milliseconds, in order), and
the final result. -/
structure RetryTrace where
  attemptsMade : Nat
  sleeps_ms : List Nat
  result : RetryResult
deriving DecidableEq, Repr

/-- The `for attempt in 1..=MAX_RETRIES` loop of `request_with_retry`
(ckan.rs).  `responses attempt` is the outcome of the HTTP send on that
attempt.  `fuel` counts the loop iterations still allowed
(`fuel = MAX_RETRIES + 1 - attempt` at every call, so fuel 0 is loop exit,
which returns `Err(last_error)`).  Branches that neither `return` nor
`continue` in Rust fall to the next loop iteration without sleeping, hence
the no-sleep recursive calls below. -/
def retryFrom (responses : Nat → HttpAttempt) (url : String) :
    Nat → Nat → AppError → List Nat → RetryTrace
  | 0, attempt, last_error, sleeps => ⟨attempt - 1, sleeps, .error last_error⟩
  | fuel + 1, attempt, _last_error, sleeps =>
    match responses attempt with
    | .response status =>
        if 200 ≤ status ∧ status ≤ 299 then ⟨attempt, sleeps, .ok status⟩
        else if status = 429 ∧ attempt < MAX_RETRIES then
          retryFrom responses url fuel (attempt + 1) .rateLimitExceeded
            (sleeps ++ [RETRY_BASE_DELAY_MS * 2 ^ attempt])
        else if (500 ≤ status ∧ status ≤ 599) ∧ attempt < MAX_RETRIES then
          retryFrom responses url fuel (attempt + 1)
            (.clientError ("Server error: HTTP " ++ toString status))
            (sleeps ++ [RETRY_BASE_DELAY_MS * attempt])
        else
          ⟨attempt, sleeps, .error (.clientError ("HTTP " ++ toString status ++ " from " ++ url))⟩
    | .timeoutErr =>
        if attempt < MAX_RETRIES then
          retryFrom responses url fuel (attempt + 1) (.timeout 30)
            (sleeps ++ [RETRY_BASE_DELAY_MS * attempt])
        else retryFrom responses url fuel (attempt + 1) (.timeout 30) sleeps
    | .connectErr msg =>
        if attempt < MAX_RETRIES then
          retryFrom responses url fuel (attempt + 1)
            (.networkError ("Connection failed: " ++ msg))
            (sleeps ++ [RETRY_BASE_DELAY_MS * attempt])
        else
          retryFrom responses url fuel (attempt + 1)
            (.networkError ("Connection failed: " ++ msg)) sleeps
    | .otherErr msg =>
        retryFrom responses url fuel (attempt + 1) (.clientError msg) sleeps

/-- From `ckan.rs`: `request_with_retry` — the loop starts at attempt 1 with
`last_error = Generic("No attempts made")`. -/
def request_with_retry (responses : Nat → HttpAttempt) (url : String) : RetryTrace :=
  retryFrom responses url MAX_RETRIES 1 (.generic "No attempts made") []

/-- UTF-8 byte length of a character list (Rust `str::len`). -/
def utf8Length (l : List Char) : Nat := (l.map Char.utf8Size).sum

/-- Rust byte slicing `&s[..n]`: the character prefix occupying exactly `n`
bytes, or `none` when `n` is not a character boundary or is out of range —
the cases where Rust panics. -/
def bytePrefix : List Char → Nat → Option (List Char)
  | _, 0 => some []
  | [], _ + 1 => none
  | c :: cs, n + 1 =>
      if c.utf8Size ≤ n + 1 then (bytePrefix cs (n + 1 - c.utf8Size)).map (c :: ·)
      else none

/-- Rust `str::split_whitespace` over a character list: maximal runs of
non-whitespace characters, in order (`acc` holds the current run reversed). -/
def splitWhitespaceAux : List Char → List Char → List (List Char)
  | [], acc => if acc.isEmpty then [] else [acc.reverse]
  | c :: cs, acc =>
      if c.isWhitespace then
        if acc.isEmpty then splitWhitespaceAux cs []
        else acc.reverse :: splitWhitespaceAux cs []
      else splitWhitespaceAux cs (c :: acc)

/-- Rust `str::split_whitespace`. -/
def splitWhitespace (l : List Char) : List (List Char) := splitWhitespaceAux l []

/-- From `main.rs`: `truncate_text`.  Whitespace characters are first mapped
to plain spaces, whitespace runs are collapsed via split/join, and the result
is byte-truncated at `max_len` with an ellipsis appended.  The byte slice
`&cleaned[..max_len]` panics when `max_len` falls inside a multi-byte UTF-8
character (the FIXME in the source acknowledges this); the panic is modelled
by `none`. -/
def truncate_text (text : String) (max_len : Nat) : Option String :=
  let mapped := text.data.map fun c => if c.isWhitespace then ' ' else c
  let cleaned := List.intercalate [' '] (splitWhitespace mapped)
  if utf8Length cleaned ≤ max_len then some (String.mk cleaned)
  else (bytePrefix cleaned max_len).map fun pre => String.mk pre ++ "..."

/-- Embedding vectors (pgvector `Vector` of f32).  The numeric contents are
opaque to every claim; scores are taken in `ℚ` to keep them exact. -/
abbrev Embedding := List ℚ

/-- From `ckan.rs`: the fields of `CkanDataset` consumed by the pipeline.
`extras` is the opaque `serde_json::Map` payload that becomes `metadata`. -/
structure CkanDataset where
  id : String
  name : String
  title : String
  notes : Option String
  extras : String
deriving DecidableEq, Repr

/-- Modelled from the spec: `ceres-core`'s `models.rs` (defining
`NewDataset`) is not present in the source tree.  Spec §3 gives its fields
as the Dataset fields minus `id` and the timestamps, plus a mandatory
freshly-computed `content_hash`. -/
structure NewDataset where
  original_id : String
  source_portal : String
  url : String
  title : String
  description : Option String
  embedding : Option Embedding
  metadata : String
  content_hash : String
deriving DecidableEq, Repr

/-- Modelled from the spec: `NewDataset::compute_content_hash` lives in the
absent `models.rs`.  Spec §4.1 specifies a deterministic digest over the
UTF-8 `title`, one separator octet, and the `description` (missing treated
as empty).  The digest is modelled by its canonical preimage — deterministic
and injective; no claim depends on the digest's width or collision
behaviour, only on equality of hashes. -/
def compute_content_hash (title : String) (description : Option String) : String :=
  title ++ String.singleton (Char.ofNat 0) ++ description.getD ""

/-- Rust `str::trim_end_matches('/')`. -/
def trimEndSlashes (s : String) : String :=
  String.mk ((s.data.reverse.dropWhile (· = '/')).reverse)

/-- From `ckan.rs`: `CkanClient::into_new_dataset`.  The landing page is
`<portal without trailing slashes>/dataset/<name>`; the embedding is left
empty for the orchestrator to fill.  `content_hash` is populated at
conversion time (spec §4.3; `sync_portal` reads it immediately after the
conversion). -/
def into_new_dataset (dataset : CkanDataset) (portal_url : String) : NewDataset :=
  { original_id := dataset.id
    source_portal := portal_url
    url := trimEndSlashes portal_url ++ "/dataset/" ++ dataset.name
    title := dataset.title
    description := dataset.notes
    embedding := none
    metadata := dataset.extras
    content_hash := compute_content_hash dataset.title dataset.notes }

/-- A row of the `datasets` table (`repository.rs` / the schema).
Timestamps are modelled as `Nat`, `id` as a `Nat` in place of a UUID. -/
structure Row where
  id : Nat
  original_id : String
  source_portal : String
  url : String
  title : String
  description : Option String
  embedding : Option Embedding
  metadata : String
  first_seen_at : Nat
  last_updated_at : Nat
  content_hash : Option String
deriving DecidableEq, Repr

/-- The `(source_portal, original_id)` uniqueness key of the schema. -/
def keyMatches (r : Row) (portal original_id : String) : Bool :=
  r.source_portal = portal && r.original_id = original_id

/-- From `repository.rs` (`upsert`): the `ON CONFLICT ... DO UPDATE SET`
assignments.  `COALESCE(EXCLUDED.embedding, datasets.embedding)` keeps the
stored embedding when the caller supplied `none`. -/
def updateRow (r : Row) (nd : NewDataset) (now : Nat) : Row :=
  { r with
    title := nd.title
    description := nd.description
    url := nd.url
    embedding := match nd.embedding with | some e => some e | none => r.embedding
    metadata := nd.metadata
    content_hash := some nd.content_hash
    last_updated_at := now }

/-- From `repository.rs` (`upsert`): the inserted row; `id` and
`first_seen_at` are store-assigned (`fresh_id`, `now`). -/
def insertRow (nd : NewDataset) (now fresh_id : Nat) : Row :=
  ⟨fresh_id, nd.original_id, nd.source_portal, nd.url, nd.title, nd.description,
    nd.embedding, nd.metadata, now, now, some nd.content_hash⟩

/-- From `repository.rs`: `upsert` as a table transformation — update the
conflicting row when one exists, otherwise append a fresh row. -/
def applyUpsert (db : List Row) (nd : NewDataset) (now fresh_id : Nat) : List Row :=
  if db.any (fun r => keyMatches r nd.source_portal nd.original_id) then
    db.map fun r =>
      if keyMatches r nd.source_portal nd.original_id then updateRow r nd now else r
  else db ++ [insertRow nd now fresh_id]

/-- From `repository.rs`: `update_timestamp_only` — set `last_updated_at` on
the matching rows and touch nothing else. -/
def applyTouch (db : List Row) (portal original_id : String) (now : Nat) : List Row :=
  db.map fun r =>
    if keyMatches r portal original_id then { r with last_updated_at := now } else r

/-- From `repository.rs` (`search`): a row paired with its
`similarity_score = 1 - (embedding <=> query_vector)`. -/
structure SearchResult where
  dataset : Row
  similarity_score : ℚ
deriving DecidableEq, Repr

/-- From `repository.rs`: `search`, the SQL
`SELECT ..., 1 - (embedding <=> $1) AS similarity_score FROM datasets
WHERE embedding IS NOT NULL ORDER BY embedding <=> $1 LIMIT $2`
over a table.  `dist` abstracts the pgvector cosine-distance operator `<=>`
(its numeric definition is irrelevant to the filter/order/limit contract):
rows with a null embedding are dropped, the rest are sorted by ascending
distance to the query vector, the first `k` are kept, and each is paired
with `1 - distance`. -/
def search (dist : Embedding → Embedding → ℚ) (db : List Row)
    (query_vector : Embedding) (k : Nat) : List SearchResult :=
  let withEmb := db.filterMap fun r => r.embedding.map fun e => (r, e)
  let sorted :=
    withEmb.insertionSort fun a b => dist a.2 query_vector ≤ dist b.2 query_vector
  (sorted.take k).map fun p => ⟨p.1, 1 - dist p.2 query_vector⟩

/-- Rust `str::trim` over a character list (strip leading and trailing
whitespace). -/
def rustTrim (l : List Char) : List Char :=
  ((l.dropWhile Char.isWhitespace).reverse.dropWhile Char.isWhitespace).reverse

/-- Per-record oracle environment for one record task of `sync_portal`
(main.rs): the outcome of each external call the task may make, with error
payloads as rendered messages. -/
structure RecordEnv where
  fetch : Except String CkanDataset
  embed : Except String Embedding
  upsert : Except String Nat
  touch : Except String Bool

/-- Observable effects of one record task: the outcomes recorded into the
shared stats (in order), whether the embedding service was called, the
dataset passed to `repo.upsert` (`none` when upsert was not reached), and
whether `repo.update_timestamp_only` was called. -/
structure RecordEffects where
  recorded : List SyncOutcome
  embedCalled : Bool
  upsertArg : Option NewDataset
  touchCalled : Bool
deriving DecidableEq, Repr

/-- The `existing_hashes` map of `sync_portal` as an association list;
`lookupHash` is `HashMap::get`. -/
def lookupHash (m : List (String × Option String)) (key : String) :
    Option (Option String) :=
  (m.find? (fun p => p.1 = key)).map (·.2)

/-- From `main.rs` (`sync_portal`): the per-id record task, mirrored branch
by branch.  Fetch failure records Failed and ends the task.  Unchanged
records Unchanged and only touches the timestamp — a touch failure is merely
logged, hence both `env.touch` arms produce identical effects.
Updated/Created build the combined text and, when it is non-empty after
trimming, call the embedding service: success attaches the vector and
records the decided outcome, failure records Failed; empty text skips the
call and records nothing.  Finally the dataset is upserted; an upsert
failure records Failed.  The `Failed` arm of the decision match is
`unreachable!()` in the source (`needs_reprocessing` never produces it, see
`C1_decision_table`) and is mapped to the empty effect trace. -/
def recordTask (env : RecordEnv) (existing_hashes : List (String × Option String))
    (portal_url : String) : RecordEffects :=
  match env.fetch with
  | .error _ => ⟨[.failed], false, none, false⟩
  | .ok ckan_data =>
    let new_dataset := into_new_dataset ckan_data portal_url
    let decision :=
      needs_reprocessing (lookupHash existing_hashes new_dataset.original_id)
        new_dataset.content_hash
    match decision.outcome with
    | .unchanged =>
        match env.touch with
        | .ok _ => ⟨[.unchanged], false, none, true⟩
        | .error _ => ⟨[.unchanged], false, none, true⟩
    | .failed => ⟨[], false, none, false⟩
    | .updated | .created =>
      let combined_text := new_dataset.title ++ " " ++ new_dataset.description.getD ""
      let step :=
        if decision.needs_embedding then
          if (rustTrim combined_text.data).isEmpty = false then
            match env.embed with
            | .ok emb =>
                ({ new_dataset with embedding := some emb }, [decision.outcome], true)
            | .error _ => (new_dataset, [SyncOutcome.failed], true)
          else (new_dataset, ([] : List SyncOutcome), false)
        else (new_dataset, ([] : List SyncOutcome), false)
      match env.upsert with
      | .ok _ => ⟨step.2.1, step.2.2, some step.1, false⟩
      | .error _ => ⟨step.2.1 ++ [.failed], step.2.2, some step.1, false⟩

/-- Fold recorded outcomes into `SyncStats`, as the atomic counters of
`sync_portal` do (one increment per recorded outcome). -/
def statsOf (outcomes : List SyncOutcome) : SyncStats :=
  outcomes.foldl SyncStats.record SyncStats.new

/-- From `main.rs` (`sync_portal`): the statistics returned for one portal —
one record task per listed package id (`envs` carries that task's oracle),
the final stats folding every outcome every task recorded. -/
def sync_portal_stats (envs : List RecordEnv)
    (existing_hashes : List (String × Option String)) (portal_url : String) : SyncStats :=
  statsOf ((envs.map fun env => (recordTask env existing_hashes portal_url).recorded).flatten)

/-- Concrete catalog record (the S1 seed scenario of the spec). -/
def cdAir : CkanDataset := ⟨"a", "a", "Air", some "AQ data", "m"⟩

/-- Concrete catalog record with empty title and missing description. -/
def cdEmpty : CkanDataset := ⟨"e1", "n", "", none, "m"⟩

/-- Oracle: fetch succeeds and the timestamp touch fails. -/
def envUnchanged : RecordEnv :=
  ⟨.ok cdAir, .ok [(1 : ℚ)], .ok 7, .error "touch failed"⟩

/-- Stored hash map under which `cdAir` is Unchanged. -/
def hashesAir : List (String × Option String) :=
  [("a", some (compute_content_hash "Air" (some "AQ data")))]

/-- Oracle: embedding call fails, upsert succeeds. -/
def envEmbedFail : RecordEnv :=
  ⟨.ok cdAir, .error "Gemini API error 401", .ok 7, .ok true⟩

/-- Oracle: empty-text record whose upsert fails. -/
def envEmptyUpsertFail : RecordEnv :=
  ⟨.ok cdEmpty, .ok [(1 : ℚ)], .error "db down", .ok true⟩

/-- Oracle: empty-text record whose upsert succeeds. -/
def envEmptyUpsertOk : RecordEnv :=
  ⟨.ok cdEmpty, .ok [(1 : ℚ)], .ok 7, .ok true⟩

/-- Oracle: both the embedding call and the upsert fail. -/
def envDoubleFail : RecordEnv :=
  ⟨.ok cdAir, .error "Gemini API error 401", .error "db down", .ok true⟩

end Ceres

namespace Ceres

/-- countP of a predicate and of its negation add up to the length. -/
theorem countP_add_countP_not {α : Type} (p : α → Bool) (l : List α) :
    l.countP p + l.countP (fun a => !p a) = l.length := by
  induction l with
  | nil => simp
  | cons a l ih =>
      by_cases h : p a = true <;>
        simp [List.countP_cons, h, ← ih] <;> omega

/-- C1: `needs_reprocessing` follows the decision table exactly: a missing
entry is Created / "new dataset", a stored entry without a hash is Updated /
"legacy record without hash", a matching hash is Unchanged / "content hash
matches" with no embedding needed, and a differing hash is Updated /
"content hash changed"; it never returns Failed, and `needs_embedding` holds
iff the outcome is not Unchanged. -/
theorem C1_decision_table (h new : String) :
    needs_reprocessing none new = ⟨true, .created, "new dataset"⟩ ∧
    needs_reprocessing (some none) new = ⟨true, .updated, "legacy record without hash"⟩ ∧
    (h = new →
      needs_reprocessing (some (some h)) new = ⟨false, .unchanged, "content hash matches"⟩) ∧
    (h ≠ new →
      needs_reprocessing (some (some h)) new = ⟨true, .updated, "content hash changed"⟩) ∧
    (∀ existing : Option (Option String),
      (needs_reprocessing existing new).outcome ≠ .failed ∧
      ((needs_reprocessing existing new).needs_embedding = true ↔
        (needs_reprocessing existing new).outcome ≠ .unchanged)) := by
  refine ⟨rfl, rfl, ?_, ?_, ?_⟩
  · intro he; simp [needs_reprocessing, he]
  · intro he; simp [needs_reprocessing, he]
  · intro existing
    match existing with
    | none => simp [needs_reprocessing]
    | some none => simp [needs_reprocessing]
    | some (some g) =>
        by_cases hg : g = new <;> simp [needs_reprocessing, hg]

/-- Witness for C1 at concrete hashes. -/
theorem C1_witness :
    needs_reprocessing (some (some "abc")) "abc" =
      ⟨false, .unchanged, "content hash matches"⟩ ∧
    needs_reprocessing (some (some "abc")) "def" =
      ⟨true, .updated, "content hash changed"⟩ := by
  refine ⟨(C1_decision_table "abc" "abc").2.2.1 rfl, (C1_decision_table "abc" "def").2.2.2.1 ?_⟩
  decide

/-- C4: batch-summary arithmetic: `total_portals` is the number of results,
`successful_count` counts exactly the results whose error is `none`,
successes and failures partition the portals, `total_datasets` sums
`stats.total` over all results, and a result built by
`PortalHarvestResult::failure` contributes zero datasets. -/
theorem C4_batch_summary (s : BatchHarvestSummary) :
    s.total_portals = s.results.length ∧
    s.successful_count = (s.results.filter (fun r => r.error.isNone)).length ∧
    s.successful_count + s.failed_count = s.total_portals ∧
    s.total_datasets = (s.results.map (fun r => r.stats.total)).sum ∧
    (∀ name url err, (PortalHarvestResult.failure name url err).stats.total = 0) := by
  refine ⟨rfl, ?_, ?_, rfl, ?_⟩
  · simp [BatchHarvestSummary.successful_count, PortalHarvestResult.is_success,
      List.countP_eq_length_filter]
  · exact countP_add_countP_not _ _
  · intro name url err
    simp [PortalHarvestResult.failure, SyncStats.total, SyncStats.new]

/-- C6 counterexample: at status 400 with message "rate quota" the claim's
rule "a non-429 status with quota in the message maps to QuotaExceeded" fails:
the premise holds, yet the classifier returns RateLimit, because the code
checks the substring "rate" before "quota" in the fallback branch. -/
theorem C6_counterexample :
    (400 : Nat) ≠ 429 ∧
    strContains "rate quota" "quota" = true ∧
    classify_gemini_error 400 "rate quota" = .rateLimit ∧
    GeminiErrorKind.rateLimit ≠ GeminiErrorKind.quotaExceeded := by
  refine ⟨by decide, by decide, by decide, by decide⟩

/-- C5: claimed behaviour of `request_with_retry` evaluated on concrete
response sequences.  A 2xx succeeds, 503-503-200 retries with linear backoff
and succeeds, other 4xx fail immediately, and three 429 responses sleep the
exponential backoffs — but the exhausted 429 run surfaces
`ClientError "HTTP 429 from <url>"` via the generic 4xx return, not the
rate-limit-classified `RateLimitExceeded` that the code stores in
`last_error` and then never returns, contradicting the claim (and the
source's own comment that the generic return handles "4xx except 429"). -/
theorem C5_retry_429_bug :
    request_with_retry (fun _ => .response 429) "u" =
      ⟨3, [1000, 2000], .error (.clientError "HTTP 429 from u")⟩ ∧
    (request_with_retry (fun _ => .response 429) "u").result ≠
      .error .rateLimitExceeded ∧
    request_with_retry (fun _ => .response 200) "u" = ⟨1, [], .ok 200⟩ ∧
    request_with_retry (fun attempt => if attempt ≤ 2 then .response 503 else .response 200)
        "u" = ⟨3, [500, 1000], .ok 200⟩ ∧
    request_with_retry (fun _ => .response 500) "u" =
      ⟨3, [500, 1000], .error (.clientError "HTTP 500 from u")⟩ ∧
    request_with_retry (fun _ => .response 404) "u" =
      ⟨1, [], .error (.clientError "HTTP 404 from u")⟩ := by
  refine ⟨by decide, by decide, by decide, by decide, by decide, by decide⟩

/-- C9: the description-truncation function is NOT multi-byte safe: on the
two-character string "éé" with max_len 1 the byte slice splits the first
two-byte UTF-8 character and the Rust code panics (modelled by `none`).  The
second conjunct replays the source's own `test_truncate_text_long` unit test,
checking the model against the code on ASCII input. -/
theorem C9_truncate_panics :
    truncate_text "éé" 1 = none ∧
    truncate_text "This is a very long text that should be truncated" 20 =
      some "This is a very long ..." := by
  exact ⟨by decide, by decide⟩

/-- If the decider wants an embedding, the decided outcome is Updated or
Created. -/
theorem outcome_of_needs_embedding (e : Option (Option String)) (h : String)
    (hne : (needs_reprocessing e h).needs_embedding = true) :
    (needs_reprocessing e h).outcome = .updated ∨
      (needs_reprocessing e h).outcome = .created := by
  match e with
  | none => exact Or.inr rfl
  | some none => exact Or.inl rfl
  | some (some g) =>
      by_cases hg : g = h
      · simp [needs_reprocessing, hg] at hne
      · simp [needs_reprocessing, hg]

/-- C2: when the delta decision for a fetched record is Unchanged, the record
task records exactly one Unchanged outcome, never reaches `repo.upsert`,
calls only `repo.update_timestamp_only`, and a failing touch does not
reclassify the outcome (both touch arms yield the same effects); moreover
`update_timestamp_only` rewrites only `last_updated_at` — every other column,
in particular `content_hash` and `embedding`, is left as stored — while the
matched row's timestamp advances to `now`. -/
theorem C2_unchanged_frame (env : RecordEnv) (existing : List (String × Option String))
    (portal : String) (cd : CkanDataset)
    (hfetch : env.fetch = .ok cd)
    (hdec : (needs_reprocessing
        (lookupHash existing (into_new_dataset cd portal).original_id)
        (into_new_dataset cd portal).content_hash).outcome = .unchanged) :
    recordTask env existing portal = ⟨[.unchanged], false, none, true⟩ ∧
    (∀ db p oid now,
      ((applyTouch db p oid now).map
          (fun r => (r.id, r.original_id, r.source_portal, r.url, r.title, r.description,
            r.embedding, r.metadata, r.first_seen_at, r.content_hash)) =
        db.map (fun r => (r.id, r.original_id, r.source_portal, r.url, r.title, r.description,
            r.embedding, r.metadata, r.first_seen_at, r.content_hash))) ∧
      ∀ r ∈ applyTouch db p oid now, keyMatches r p oid = true → r.last_updated_at = now) := by
  constructor
  · unfold recordTask
    rw [hfetch]
    dsimp only
    rw [hdec]
    cases env.touch <;> rfl
  · intro db p oid now
    constructor
    · simp only [applyTouch, List.map_map]
      apply List.map_congr_left
      intro r _
      by_cases h : keyMatches r p oid = true <;> simp [h]
    · intro r hr hk
      simp only [applyTouch, List.mem_map] at hr
      obtain ⟨r0, _, hmap⟩ := hr
      by_cases h : keyMatches r0 p oid = true
      · rw [if_pos h] at hmap
        subst hmap
        rfl
      · rw [if_neg h] at hmap
        subst hmap
        exact absurd hk h

/-- Witness for C2: the S1 record re-seen with a matching stored hash, with a
failing timestamp touch. -/
theorem C2_witness :
    recordTask envUnchanged hashesAir "p" = ⟨[.unchanged], false, none, true⟩ :=
  (C2_unchanged_frame envUnchanged hashesAir "p" cdAir rfl (by decide)).1

/-- C3: for a record whose decision needs an embedding and whose combined
text is non-empty, a failing embedding call makes the task record Failed
instead of the decided Updated/Created, and the task still upserts the
converted dataset, whose embedding field is `none`; under the COALESCE rule
of `upsert`, such an update leaves the stored embedding untouched while
overwriting title, description, url, metadata and content_hash. -/
theorem C3_embed_failure (env : RecordEnv) (existing : List (String × Option String))
    (portal : String) (cd : CkanDataset) (msg : String)
    (hfetch : env.fetch = .ok cd)
    (hne : (needs_reprocessing
        (lookupHash existing (into_new_dataset cd portal).original_id)
        (into_new_dataset cd portal).content_hash).needs_embedding = true)
    (htext : (rustTrim ((into_new_dataset cd portal).title ++ " " ++
        (into_new_dataset cd portal).description.getD "").data).isEmpty = false)
    (hembed : env.embed = .error msg) :
    (recordTask env existing portal).recorded =
      .failed :: (match env.upsert with | .ok _ => [] | .error _ => [.failed]) ∧
    SyncOutcome.updated ∉ (recordTask env existing portal).recorded ∧
    SyncOutcome.created ∉ (recordTask env existing portal).recorded ∧
    (recordTask env existing portal).upsertArg = some (into_new_dataset cd portal) ∧
    (into_new_dataset cd portal).embedding = none ∧
    (∀ r now,
      (updateRow r (into_new_dataset cd portal) now).embedding = r.embedding ∧
      (updateRow r (into_new_dataset cd portal) now).title =
        (into_new_dataset cd portal).title ∧
      (updateRow r (into_new_dataset cd portal) now).description =
        (into_new_dataset cd portal).description ∧
      (updateRow r (into_new_dataset cd portal) now).url =
        (into_new_dataset cd portal).url ∧
      (updateRow r (into_new_dataset cd portal) now).metadata =
        (into_new_dataset cd portal).metadata ∧
      (updateRow r (into_new_dataset cd portal) now).content_hash =
        some (into_new_dataset cd portal).content_hash) := by
  have key : recordTask env existing portal =
      ⟨.failed :: (match env.upsert with | .ok _ => [] | .error _ => [.failed]),
        true, some (into_new_dataset cd portal), false⟩ := by
    unfold recordTask
    rw [hfetch]
    dsimp only
    rcases outcome_of_needs_embedding _ _ hne with h | h <;>
      · rw [h]
        dsimp only
        rw [hne, hembed]
        dsimp only
        rw [htext]
        cases env.upsert <;> rfl
  refine ⟨by rw [key], ?_, ?_, by rw [key], rfl, ?_⟩
  · rw [key]
    cases env.upsert <;> simp
  · rw [key]
    cases env.upsert <;> simp
  · intro r now
    refine ⟨rfl, rfl, rfl, rfl, rfl, rfl⟩

/-- Witness for C3: a Created record whose embedding call fails with an auth
error and whose upsert succeeds. -/
theorem C3_witness :
    (recordTask envEmbedFail [] "p").recorded = [.failed] ∧
    (recordTask envEmbedFail [] "p").upsertArg = some (into_new_dataset cdAir "p") := by
  have h := C3_embed_failure envEmbedFail [] "p" cdAir "Gemini API error 401" rfl
    (by decide) (by decide) rfl
  refine ⟨?_, h.2.2.2.1⟩
  rw [h.1]
  rfl

/-- C7: `search` returns only rows whose embedding is present, is ordered
best-first by similarity score (equivalently, ascending cosine distance to
the query vector), returns at most `k` rows, and `k = 0` yields the empty
list without error. -/
theorem C7_search_spec (dist : Embedding → Embedding → ℚ) (db : List Row)
    (q : Embedding) (k : Nat) :
    ((search dist db q k).all fun res => res.dataset.embedding.isSome) = true ∧
    List.Sorted (fun a b : SearchResult => b.similarity_score ≤ a.similarity_score)
      (search dist db q k) ∧
    (search dist db q k).length ≤ k ∧
    search dist db q 0 = [] := by
  refine ⟨?_, ?_, ?_, ?_⟩
  · rw [List.all_eq_true]
    intro res hres
    simp only [search, List.mem_map] at hres
    obtain ⟨p, hp, rfl⟩ := hres
    have hp2 : p ∈ db.filterMap fun r => r.embedding.map fun e => (r, e) :=
      (List.perm_insertionSort _ _).subset (List.take_subset _ _ hp)
    simp only [List.mem_filterMap, Option.map_eq_some'] at hp2
    obtain ⟨r, _, e, he, hpe⟩ := hp2
    subst hpe
    simp [he]
  · haveI h1 : IsTotal (Row × Embedding)
        (fun a b => dist a.2 q ≤ dist b.2 q) := ⟨fun _ _ => le_total _ _⟩
    haveI h2 : IsTrans (Row × Embedding)
        (fun a b => dist a.2 q ≤ dist b.2 q) := ⟨fun _ _ _ hab hbc => le_trans hab hbc⟩
    have hs := List.sorted_insertionSort
      (fun a b : Row × Embedding => dist a.2 q ≤ dist b.2 q)
      (db.filterMap fun r => r.embedding.map fun e => (r, e))
    have ht := List.Pairwise.sublist (List.take_sublist k _) hs
    exact List.Pairwise.map _ (fun a b hab => sub_le_sub_left hab 1) ht
  · simp only [search, List.length_map, List.length_take]
    exact min_le_left _ _
  · simp [search]

/-- C8 counterexample: a record with empty title and missing description
whose decision needs an embedding (premises checked in the first two
conjuncts) skips the embedding call, but when its upsert fails the task
records Failed — so the stats for that record are not empty, refuting the
claim's "increments no outcome counter / counts nothing". -/
theorem C8_counterexample :
    (needs_reprocessing (lookupHash [] (into_new_dataset cdEmpty "p").original_id)
        (into_new_dataset cdEmpty "p").content_hash).needs_embedding = true ∧
    (rustTrim ((into_new_dataset cdEmpty "p").title ++ " " ++
        (into_new_dataset cdEmpty "p").description.getD "").data).isEmpty = true ∧
    (recordTask envEmptyUpsertFail [] "p").embedCalled = false ∧
    (recordTask envEmptyUpsertFail [] "p").recorded = [.failed] ∧
    (statsOf (recordTask envEmptyUpsertFail [] "p").recorded).total ≠ 0 := by
  refine ⟨by decide, by decide, by decide, by decide, by decide⟩

/-- C8 (amended): for a record whose decision needs an embedding but whose
combined text (title, a space, the description) is empty after trimming, the
task does not call the embedding service, records nothing in the embedding
step, and still upserts the record; the returned stats count nothing for
this record when the upsert succeeds, while a failing upsert records exactly
one Failed (the upsert step's own rule). -/
theorem C8_empty_text_amended (env : RecordEnv) (existing : List (String × Option String))
    (portal : String) (cd : CkanDataset)
    (hfetch : env.fetch = .ok cd)
    (hne : (needs_reprocessing
        (lookupHash existing (into_new_dataset cd portal).original_id)
        (into_new_dataset cd portal).content_hash).needs_embedding = true)
    (htext : (rustTrim ((into_new_dataset cd portal).title ++ " " ++
        (into_new_dataset cd portal).description.getD "").data).isEmpty = true) :
    (recordTask env existing portal).embedCalled = false ∧
    (recordTask env existing portal).upsertArg = some (into_new_dataset cd portal) ∧
    (∀ u, env.upsert = .ok u → (recordTask env existing portal).recorded = []) ∧
    (∀ e, env.upsert = .error e → (recordTask env existing portal).recorded = [.failed]) := by
  have key : recordTask env existing portal =
      ⟨(match env.upsert with | .ok _ => [] | .error _ => [.failed]),
        false, some (into_new_dataset cd portal), false⟩ := by
    unfold recordTask
    rw [hfetch]
    dsimp only
    rcases outcome_of_needs_embedding _ _ hne with h | h <;>
      · rw [h]
        dsimp only
        rw [hne, htext]
        cases env.upsert <;> rfl
  refine ⟨by rw [key], by rw [key], ?_, ?_⟩
  · intro u hu
    rw [key, hu]
  · intro e he
    rw [key, he]

/-- Witness for C8 (amended): the empty-text record with a successful
upsert records nothing. -/
theorem C8_witness :
    (recordTask envEmptyUpsertOk [] "p").embedCalled = false ∧
    (recordTask envEmptyUpsertOk [] "p").recorded = [] := by
  have h := C8_empty_text_amended envEmptyUpsertOk [] "p" cdEmpty rfl (by decide) (by decide)
  exact ⟨h.1, h.2.2.1 7 rfl⟩

/-- `strContains` agrees with list-infix containment. -/
theorem strContains_iff (s pat : String) :
    strContains s pat = true ↔ pat.data <:+: s.data := by
  constructor
  · intro h
    simp only [strContains, List.any_eq_true] at h
    obtain ⟨t, ht, hpre⟩ := h
    rw [List.mem_tails] at ht
    rw [List.isPrefixOf_iff_prefix] at hpre
    exact List.infix_iff_prefix_suffix.mpr ⟨t, hpre, ht⟩
  · intro h
    obtain ⟨t, hpre, hsuf⟩ := List.infix_iff_prefix_suffix.mp h
    simp only [strContains, List.any_eq_true]
    exact ⟨t, (List.mem_tails _ _).mpr hsuf, List.isPrefixOf_iff_prefix.mpr hpre⟩

/-- A message containing "insufficient_quota" also contains "quota", so the
code's 429 disjunction collapses to the single "quota" test. -/
theorem strContains_quota_of_insufficient (m : String)
    (h : strContains m "insufficient_quota" = true) : strContains m "quota" = true := by
  rw [strContains_iff] at h ⊢
  exact List.IsInfix.trans (by decide) h

/-- C6 (amended): the classifier maps 401 to Authentication; 429 with
"quota" in the message to QuotaExceeded and any other 429 to RateLimit; any
5xx to ServerError; for every remaining status the message rules apply in
order — "API key" or "Unauthorized" gives Authentication, else "rate" gives
RateLimit (taking precedence over "quota"), else "quota" gives
QuotaExceeded, else Unknown. -/
theorem C6_classifier_amended (status : Nat) (message : String) :
    (status = 401 → classify_gemini_error status message = .authentication) ∧
    (status = 429 → strContains message "quota" = true →
      classify_gemini_error status message = .quotaExceeded) ∧
    (status = 429 → strContains message "quota" = false →
      classify_gemini_error status message = .rateLimit) ∧
    (500 ≤ status → status ≤ 599 →
      classify_gemini_error status message = .serverError) ∧
    (status ≠ 401 → status ≠ 429 → ¬(500 ≤ status ∧ status ≤ 599) →
      (((strContains message "API key" || strContains message "Unauthorized") = true →
        classify_gemini_error status message = .authentication) ∧
      ((strContains message "API key" || strContains message "Unauthorized") = false →
        strContains message "rate" = true →
        classify_gemini_error status message = .rateLimit) ∧
      ((strContains message "API key" || strContains message "Unauthorized") = false →
        strContains message "rate" = false → strContains message "quota" = true →
        classify_gemini_error status message = .quotaExceeded) ∧
      ((strContains message "API key" || strContains message "Unauthorized") = false →
        strContains message "rate" = false → strContains message "quota" = false →
        classify_gemini_error status message = .unknown))) := by
  refine ⟨?_, ?_, ?_, ?_, ?_⟩
  · intro h
    subst h
    simp [classify_gemini_error]
  · intro h hq
    subst h
    simp [classify_gemini_error, hq]
  · intro h hq
    subst h
    have hi : strContains message "insufficient_quota" = false := by
      cases hI : strContains message "insufficient_quota"
      · rfl
      · have hcontra := strContains_quota_of_insufficient message hI
        rw [hq] at hcontra
        cases hcontra
    simp [classify_gemini_error, hq, hi]
  · intro h5 h9
    have h1 : status ≠ 401 := by omega
    have h2 : status ≠ 429 := by omega
    simp [classify_gemini_error, h1, h2, h5, h9]
  · intro h1 h2 h3
    refine ⟨?_, ?_, ?_, ?_⟩
    · intro ha
      simp [classify_gemini_error, h1, h2, h3, ha]
    · intro ha hr
      simp [classify_gemini_error, h1, h2, h3, ha, hr]
    · intro ha hr hq
      simp [classify_gemini_error, h1, h2, h3, ha, hr, hq]
    · intro ha hr hq
      simp [classify_gemini_error, h1, h2, h3, ha, hr, hq]

/-- Witness for C6 (amended), one concrete input per rule family. -/
theorem C6_witness :
    classify_gemini_error 401 "m" = .authentication ∧
    classify_gemini_error 429 "quota reached" = .quotaExceeded ∧
    classify_gemini_error 429 "slow down" = .rateLimit ∧
    classify_gemini_error 503 "x" = .serverError ∧
    classify_gemini_error 400 "bad API key" = .authentication ∧
    classify_gemini_error 400 "plain" = .unknown :=
  ⟨(C6_classifier_amended 401 "m").1 rfl,
   (C6_classifier_amended 429 "quota reached").2.1 rfl (by decide),
   (C6_classifier_amended 429 "slow down").2.2.1 rfl (by decide),
   (C6_classifier_amended 503 "x").2.2.2.1 (by decide) (by decide),
   ((C6_classifier_amended 400 "bad API key").2.2.2.2 (by decide) (by decide)
     (by decide)).1 (by decide),
   ((C6_classifier_amended 400 "plain").2.2.2.2 (by decide) (by decide)
     (by decide)).2.2.2 (by decide) (by decide) (by decide)⟩

/-- C10: a single record task can record Failed twice — once for the failing
embedding call and once for the failing upsert of the same record — so a
sync over a single listed package id returns stats whose total, 2, strictly
exceeds the number of listed ids, 1. -/
theorem C10_double_failed :
    (recordTask envDoubleFail [] "p").recorded = [.failed, .failed] ∧
    sync_portal_stats [envDoubleFail] [] "p" = ⟨0, 0, 0, 2⟩ ∧
    (sync_portal_stats [envDoubleFail] [] "p").total = 2 ∧
    [envDoubleFail].length = 1 ∧
    [envDoubleFail].length < (sync_portal_stats [envDoubleFail] [] "p").total := by
  refine ⟨by decide, by decide, by decide, by decide, by decide⟩

end Ceres
